import Mathlib

/-!
Shallow embedding of `src/glb_bulk_optimizer.py` (a Blender batch texture
optimizer).  Python strings are Lean `String`s, Python floats are modelled as
exact rationals `ℚ`, Blender host-API calls that may raise are modelled by
boolean failure flags carried on the image record, and Python exceptions are
modelled with `Except`.  Definitions mirror the source functions of the same
name; the module-level configuration globals are gathered into a `Config`
record passed explicitly.
-/

deriving instance DecidableEq for Except

namespace GlbOpt

/-- Helper `startsList pat l` - does the char list `l` start with `pat`?
(Helper for Python's substring operator `in`.) -/
def startsList : List Char → List Char → Bool
  | [], _ => true
  | _ :: _, [] => false
  | p :: ps, c :: cs => p == c && startsList ps cs

/-- Helper `containsList pat l` - does `pat` occur as a contiguous run inside `l`?
Mirrors Python's `pat in l` on strings. -/
def containsList (pat : List Char) : List Char → Bool
  | [] => pat.isEmpty
  | c :: cs => startsList pat (c :: cs) || containsList pat cs

/-- Function `strContains s pat` models Python's `pat in s` for strings. -/
def strContains (s pat : String) : Bool :=
  containsList pat.data s.data

/-- Python's `str.lower()` (ASCII lowercasing, as used on the ASCII names
and messages of this script), written over the char list so that it is
kernel-reducible. -/
def strToLower (s : String) : String := String.mk (s.data.map Char.toLower)

/-- Function `strEndsWith s pat` - does `s` end with `pat`? (Models a literal
`*.<ext>` glob pattern match of `pathlib.Path.glob`.) -/
def strEndsWith (s pat : String) : Bool :=
  decide (pat.data.length ≤ s.data.length) &&
    s.data.drop (s.data.length - pat.data.length) == pat.data

/-- Index of the last `.` in a char list, if any. -/
def lastDotIdx (l : List Char) : Option Nat :=
  (List.range l.length).foldl
    (fun acc i => if l.getD i ' ' == '.' then some i else acc) none

/-- Python `pathlib.PurePath.suffix` on a bare file name: the extension
including the dot, empty when the last dot is the first character or the
final one (`name[i:] if 0 < i < len(name) - 1 else ""`). -/
def fileSuffix (s : String) : String :=
  match lastDotIdx s.data with
  | none => ""
  | some i => if 0 < i ∧ i + 1 < s.data.length then String.mk (s.data.drop i) else ""

/-- Python `pathlib.PurePath.stem`: the name with `fileSuffix` stripped. -/
def fileStem (s : String) : String :=
  String.mk (s.data.take (s.data.length - (fileSuffix s).data.length))

/-- The module-level configuration globals of `glb_bulk_optimizer.py`
(lines 36-61), passed explicitly. -/
structure Config where
  target_resolution : Nat
  skip_existing : Bool
  texture_format : String
  jpeg_quality : Nat
  preserve_format : Bool
  remove_specular : Bool
  aggressive_jpeg_conversion : Bool
  force_compression : Bool
deriving DecidableEq, Repr

/-- The default configuration values of the source file. -/
def defaultConfig : Config :=
  { target_resolution := 512
    skip_existing := true
    texture_format := "AUTO"
    jpeg_quality := 80
    preserve_format := false
    remove_specular := true
    aggressive_jpeg_conversion := true
    force_compression := true }

/-- A Blender image datablock (`bpy.types.Image`) as used by the script.
`pixels` is the flat RGBA float buffer (exact rationals).  `idProps` is the
set of custom ID properties created by item assignment
(`image["key"] = ...`); `pyAttrs` is the set of plain Python attributes -
in Blender's API these are distinct stores: a custom ID property is *not*
visible to `hasattr`/`getattr` attribute lookup on a `bpy_struct`.
`scaleRaises` / `compressRaises` / `packRaises` model whether the host
calls `image.scale(...)`, the save-and-reload block of
`apply_texture_compression`, and `image.pack()` raise when invoked.
`roundTrips` counts how many times the image's pixel data has actually been
re-encoded through a lossy save/reload round trip. -/
structure PImage where
  name : String
  pixels : List ℚ
  file_format : String
  packed : Bool
  width : Nat
  height : Nat
  idProps : List String
  pyAttrs : List String
  scaleRaises : Bool
  compressRaises : Bool
  packRaises : Bool
  roundTrips : Nat
deriving DecidableEq, Repr

/-- A default value of a shader-node input socket: scalar or RGBA color. -/
inductive DVal where
  | scalar : ℚ → DVal
  | color : ℚ × ℚ × ℚ × ℚ → DVal
deriving DecidableEq, Repr

/-- An input socket of a shader node. -/
structure PInput where
  name : String
  default_value : DVal
deriving DecidableEq, Repr

/-- A node-tree link, identified by source node and target node/socket. -/
structure PLink where
  fromNode : String
  toNode : String
  toInput : String
deriving DecidableEq, Repr

/-- A shader node.  `ntype` is Blender's node `type` string
(`TEX_IMAGE`, `BSDF_PRINCIPLED`, `BSDF_GLOSSY`, ...); `image` is the name
of the referenced image datablock for texture nodes. -/
structure PNode where
  name : String
  ntype : String
  image : Option String
  inputs : List PInput
deriving DecidableEq, Repr

/-- A Blender material: node graph (when `use_nodes`), user count, and the
flat specular properties used by non-node materials. -/
structure PMaterial where
  name : String
  use_nodes : Bool
  users : Nat
  nodes : List PNode
  links : List PLink
  specular_intensity : ℚ
  specular_color : ℚ × ℚ × ℚ
deriving DecidableEq, Repr

/-- Slice `pixels[3::4]` - the alpha plane of the flat RGBA buffer (used by the
source only when the length is divisible by 4). -/
def alphaValues (pixels : List ℚ) : List ℚ :=
  (List.range (pixels.length / 4)).map (fun k => pixels.getD (4 * k + 3) 0)

/-- Source `sample_step = max(1, len(alpha_values) // 1000)` (line 116). -/
def sampleStep (n : Nat) : Nat := max 1 (n / 1000)

/-- The indices visited by `range(0, n, sample_step)` (line 119):
`0, s, 2s, ...` below `n`; Python's `range(0, n, s)` has exactly
`⌈n / s⌉` elements. -/
def sampleIndices (n : Nat) : List Nat :=
  (List.range ((n + sampleStep n - 1) / sampleStep n)).map (fun k => k * sampleStep n)

/-- Source `has_alpha_channel(image)` (lines 100-130): `False` for a missing image
or empty pixel buffer, `False` when the buffer length is not divisible by 4,
else `True` iff some alpha value at a sampled index is below `0.98`.  The
surrounding `try/except` returns `False` on decode failure; the pure model
has no failing operations in this function. -/
def has_alpha_channel (image : Option PImage) : Bool :=
  match image with
  | none => false
  | some img =>
    if img.pixels.isEmpty then false
    else if img.pixels.length % 4 ≠ 0 then false
    else
      let alphas := alphaValues img.pixels
      (sampleIndices alphas.length).any (fun i => decide (alphas.getD i 1 < (49 : ℚ) / 50))

/-- The precision-sensitive name keywords of line 142. -/
def precisionKeywords : List String := ["normal", "nrm", "bump", "roughness", "metallic"]

/-- The conservative alpha name keywords of line 160. -/
def alphaKeywords : List String := ["alpha", "opacity", "mask"]

/-- Source `get_texture_format(image_name, node_type, image)` (lines 132-164).
`node_type` is accepted and unused, as in the source. -/
def get_texture_format (cfg : Config) (image_name : String) (node_type : Option String)
    (image : Option PImage) : String :=
  if cfg.texture_format = "PNG" then "PNG"
  else if cfg.texture_format = "JPEG" then "JPEG"
  else
    let name_lower := strToLower image_name
    if precisionKeywords.any (fun k => strContains name_lower k) then "PNG"
    else if cfg.aggressive_jpeg_conversion then
      match image with
      | some img => if has_alpha_channel (some img) then "PNG" else "JPEG"
      | none => "JPEG"
    else if alphaKeywords.any (fun k => strContains name_lower k) then "PNG"
    else "JPEG"

/-- The specular-tint name keywords (lines 201-202 and 399-400). -/
def tintKeywords : List String :=
  ["specular_tint", "spectint", "spec_tint", "specular tint"]

/-- The specular-tint test used both by the sanitizer (lines 196-202) and by
the texture pass (lines 397-400): a keyword occurs in the lowercased image
name or in the lowercased node name. -/
def tintMatch (imageName nodeName : String) : Bool :=
  tintKeywords.any (fun k => strContains (strToLower imageName) k) ||
  tintKeywords.any (fun k => strContains (strToLower nodeName) k)

/-- The three principled-BSDF specular input names of lines 189 and 217. -/
def specInputNames : List String := ["Specular", "Specular IOR Level", "Specular Tint"]

/-- Lines 228-242: the default value written by the sanitizer to a
principled-BSDF specular input - `Specular Tint` becomes white (scalar 1.0
or color (1,1,1,1)), the other specular inputs become 0.0 or (0,0,0,1).
Inputs with other names are untouched. -/
def setSpecDefault (inp : PInput) : PInput :=
  if specInputNames.contains inp.name then
    if inp.name = "Specular Tint" then
      { inp with default_value :=
          match inp.default_value with
          | .scalar _ => .scalar 1
          | .color _ => .color (1, 1, 1, 1) }
    else
      { inp with default_value :=
          match inp.default_value with
          | .scalar _ => .scalar 0
          | .color _ => .color (0, 0, 0, 1) }
  else inp

/-- Lines 196-202: a texture node slated for removal by the sanitizer. -/
def isTintTexNode (n : PNode) : Bool :=
  n.ntype == "TEX_IMAGE" &&
    (match n.image with
     | some imgName => tintMatch imgName n.name
     | none => false)

/-- Line 252: glossy / anisotropic nodes are unconditionally removed. -/
def isGlossyNode (n : PNode) : Bool :=
  n.ntype == "BSDF_GLOSSY" || n.ntype == "BSDF_ANISOTROPIC"

/-- A node collected into `nodes_to_remove` during the sanitizer's scan. -/
def nodeRemoved (n : PNode) : Bool := isTintTexNode n || isGlossyNode n

/-- A link collected into `links_to_remove` during the sanitizer's scan:
either an outgoing link of a tint texture node (lines 206-208), or an
incoming link of a present specular input of a principled node
(lines 224-225). -/
def linkRemoved (mat : PMaterial) (l : PLink) : Bool :=
  mat.nodes.any (fun n => isTintTexNode n && l.fromNode == n.name) ||
  mat.nodes.any (fun n =>
    n.ntype == "BSDF_PRINCIPLED" && l.toNode == n.name &&
    specInputNames.contains l.toInput &&
    n.inputs.any (fun i => i.name == l.toInput))

/-- Source `clean_material_properties(material)` (lines 166-277).  Returns when the
specular-removal flag is off; for non-node materials zeroes the flat
specular properties; otherwise rewrites specular-input defaults on
principled nodes, then removes the collected links, then the collected
nodes.  The per-node / per-link `try/except`s of the source only catch host
API failures; the pure node-list operations of the model cannot fail. -/
def clean_material_properties (cfg : Config) (mat : PMaterial) : PMaterial :=
  if ¬ cfg.remove_specular then mat
  else if ¬ mat.use_nodes then
    { mat with specular_intensity := 0, specular_color := (0, 0, 0) }
  else
    { mat with
      nodes :=
        (mat.nodes.map (fun n =>
          if n.ntype == "BSDF_PRINCIPLED" then
            { n with inputs := n.inputs.map setSpecDefault }
          else n)).filter (fun n => ! nodeRemoved n)
      links := mat.links.filter (fun l => ! linkRemoved mat l) }

/-- The links of `m` arriving at input `inputName` of node `nodeName`. -/
def incomingLinks (m : PMaterial) (nodeName inputName : String) : List PLink :=
  m.links.filter (fun l => l.toNode == nodeName && l.toInput == inputName)

/-- Source `apply_texture_compression(image, target_format)` (lines 279-359).
JPEG: the format tag is set first (line 293); then, when force-compression
is on or the image was not already JPEG, the image is saved to a temp file
and reloaded (lines 304-343) - on success the reload leaves the image
file-backed (unpacked) and it is re-packed if it was packed before; any
failure in that block is caught at line 345 and only the format tag change
survives.  PNG: only the format tag is set (line 351).  The whole body is
wrapped in `try/except` (line 358), so this function never raises. -/
def apply_texture_compression (cfg : Config) (img : PImage) (target_format : String) :
    PImage :=
  if target_format = "JPEG" then
    if cfg.force_compression ∨ img.file_format ≠ "JPEG" then
      if img.compressRaises then { img with file_format := "JPEG" }
      else
        if img.packed then
          if img.packRaises then
            { img with file_format := "JPEG", roundTrips := img.roundTrips + 1,
                       packed := false }
          else
            { img with file_format := "JPEG", roundTrips := img.roundTrips + 1,
                       packed := true }
        else
          { img with file_format := "JPEG", roundTrips := img.roundTrips + 1,
                     packed := false }
    else { img with file_format := "JPEG" }
  else if target_format = "PNG" then { img with file_format := "PNG" }
  else img

/-- The inline resize block of `process_material_textures` (lines 417-429):
when either dimension exceeds the target, `image.scale(T, T)` is called with
no surrounding `try/except` - a raising scale propagates out of the
function; otherwise the image is left untouched. -/
def pipelineResize (cfg : Config) (img : PImage) : Except String PImage :=
  if cfg.target_resolution < img.width ∨ cfg.target_resolution < img.height then
    if img.scaleRaises then Except.error "image.scale raised"
    else Except.ok { img with width := cfg.target_resolution, height := cfg.target_resolution }
  else Except.ok img

/-- Look up an image datablock by name (Blender keeps image names unique). -/
def lookupImage (store : List PImage) (nm : String) : Option PImage :=
  store.find? (fun i => i.name == nm)

/-- Replace the entry of the same name in the image store. -/
def updateImage (store : List PImage) (img : PImage) : List PImage :=
  store.map (fun i => if i.name == img.name then img else i)

/-- Line 393: `hasattr(image, "_bulk_processed")`.  In Blender's Python API
attribute lookup on a `bpy_struct` does not see custom ID properties, so
only a plain Python attribute (never created by this script) would satisfy
it. -/
def hasattrBulkProcessed (img : PImage) : Bool :=
  img.pyAttrs.contains "_bulk_processed"

/-- Line 441: `image["_bulk_processed"] = True` - creates a custom ID
property (item assignment), not a Python attribute. -/
def setItemBulkProcessed (img : PImage) : PImage :=
  { img with idProps :=
      if img.idProps.contains "_bulk_processed" then img.idProps
      else "_bulk_processed" :: img.idProps }

/-- The processing applied to one non-skipped texture image by
`process_material_textures` (lines 405-441): decide the format
(`get_texture_format`, line 408), apply compression (line 411), resize with
an uncaught `image.scale` (lines 417-429, a raising scale propagates),
re-pack if the image was packed before and is not packed now
(lines 432-438, failure caught and logged), and mark the custom ID property
(line 441). -/
def processImageAtNode (cfg : Config) (node : PNode) (img : PImage) :
    Except String PImage :=
  match pipelineResize cfg
      (apply_texture_compression cfg img
        (get_texture_format cfg img.name (some node.ntype) (some img))) with
  | Except.error e => Except.error e
  | Except.ok img2 =>
    Except.ok (setItemBulkProcessed
      (if img.packed ∧ ¬ img2.packed then
        if img2.packRaises then img2 else { img2 with packed := true }
      else img2))

/-- The body of the `for node in material.node_tree.nodes` loop of
`process_material_textures` (lines 388-441) at one node: skip non-texture
nodes, nodes with no image, images that `hasattr` reports processed, and
specular-tint-named textures; otherwise run `processImageAtNode` and store
the result.  Returns the updated store and the number of textures counted
as processed at this node (0 or 1). -/
def stepNode (cfg : Config) (store : List PImage) (node : PNode) :
    Except String (List PImage × Nat) :=
  if node.ntype = "TEX_IMAGE" then
    match node.image with
    | none => Except.ok (store, 0)
    | some nm =>
      match lookupImage store nm with
      | none => Except.ok (store, 0)
      | some img =>
        if hasattrBulkProcessed img then Except.ok (store, 0)
        else if tintMatch img.name node.name then Except.ok (store, 0)
        else
          match processImageAtNode cfg node img with
          | Except.error e => Except.error e
          | Except.ok img4 => Except.ok (updateImage store img4, 1)
  else Except.ok (store, 0)

/-- Fold `stepNode` over the material's nodes, threading the image store and
accumulating the processed count; an uncaught exception aborts the loop. -/
def pmtGo (cfg : Config) : List PNode → List PImage → Nat →
    Except String (List PImage × Nat)
  | [], store, count => Except.ok (store, count)
  | n :: rest, store, count =>
    match stepNode cfg store n with
    | Except.error e => Except.error e
    | Except.ok (s', c) => pmtGo cfg rest s' (count + c)

/-- Source `process_material_textures(material)` (lines 381-443): returns 0 for
non-node materials, else processes every texture node in order. -/
def process_material_textures (cfg : Config) (mat : PMaterial) (store : List PImage) :
    Except String (List PImage × Nat) :=
  if ¬ mat.use_nodes then Except.ok (store, 0)
  else pmtGo cfg mat.nodes store 0

/-- The texture-processing loop of `process_glb_file` (lines 603-608):
`process_material_textures` over every material with users, threading the
shared image store; an uncaught exception propagates to the caller. -/
def pmtAll (cfg : Config) : List PMaterial → List PImage →
    Except String (List PImage × Nat)
  | [], store => Except.ok (store, 0)
  | m :: ms, store =>
    if 0 < m.users then
      match process_material_textures cfg m store with
      | Except.error e => Except.error e
      | Except.ok (s', c) =>
        match pmtAll cfg ms s' with
        | Except.error e => Except.error e
        | Except.ok (s'', c') => Except.ok (s'', c + c')
    else pmtAll cfg ms store

/-- Source `get_file_type(filepath)` (lines 445-453): classify by the lowercased
`Path.suffix`. -/
def get_file_type (name : String) : String :=
  let ext := strToLower (fileSuffix name)
  if ext = ".glb" ∨ ext = ".gltf" then "gltf"
  else if ext = ".vrm" then "vrm"
  else "unknown"

/-- Outcome of one host importer invocation (`bpy.ops.import_scene.*`):
success, or an exception carrying its message string. -/
inductive AttemptResult where
  | ok : AttemptResult
  | err : String → AttemptResult
deriving DecidableEq, Repr

/-- The host importer's behaviour on this file: the outcome of the primary
call and the outcome of the fallback call
(`import_scene.gltf(..., import_pack_images=True)`, line 471) if it is ever
made. -/
structure ImportBehavior where
  first : AttemptResult
  fallback : AttemptResult
deriving DecidableEq, Repr

/-- Line 468: the retry condition - `"bone"` or `"animation"` occurs in the
lowercased exception message. -/
def animKeyword (msg : String) : Bool :=
  strContains (strToLower msg) "bone" || strContains (strToLower msg) "animation"

/-- The body of `import_file` after classification, returning
(success, number of importer invocations made). -/
def importByType (ftype : String) (beh : ImportBehavior) : Bool × Nat :=
  if ftype = "gltf" then
    match beh.first with
    | AttemptResult.ok => (true, 1)
    | AttemptResult.err msg =>
      if animKeyword msg then
        match beh.fallback with
        | AttemptResult.ok => (true, 2)
        | AttemptResult.err _ => (false, 2)
      else (false, 1)
  else if ftype = "vrm" then
    match beh.first with
    | AttemptResult.ok => (true, 1)
    | AttemptResult.err _ => (false, 1)
  else (false, 0)

/-- Source `import_file(input_path)` (lines 455-493): gltf/glb failures retry once
with `import_pack_images=True` only when the message mentions bone/animation
(lines 466-479); vrm failures never retry (lines 481-489); unknown types
fail without any importer call (lines 491-493). -/
def import_file (name : String) (beh : ImportBehavior) : Bool × Nat :=
  importByType (get_file_type name) beh

/-- Source `process_glb_file(input_path, output_path)` (lines 581-633): clear the
scene, import (failure returns `False`), sanitize every used material when
the flag is on, process textures of every used material (an uncaught
per-texture exception is caught by the function-level `try` and yields
`False`), then export; `exportOk` models the host `export_file` result.
The imported scene content (materials and image store) is supplied by the
host importer as parameters. -/
def process_glb_file (cfg : Config) (input_name : String) (beh : ImportBehavior)
    (mats : List PMaterial) (store : List PImage) (exportOk : Bool) : Bool :=
  if (import_file input_name beh).1 = false then false
  else
    let mats1 :=
      if cfg.remove_specular then
        mats.map (fun m => if 0 < m.users then clean_material_properties cfg m else m)
      else mats
    match pmtAll cfg mats1 store with
    | Except.error _ => false
    | Except.ok _ => exportOk

/-- Line 721 and line 736: the size-reduction percentage, with Python floats
modelled as exact rationals. -/
def compression_ratio (original_size new_size : ℚ) : ℚ :=
  if 0 < original_size then (original_size - new_size) / original_size * 100 else 0

/-- The batch accumulators of `main` (lines 681-685, 730-733). -/
structure RunStats where
  found : Nat
  processed : Nat
  skipped : Nat
  errors : Nat
  size_before : ℚ
  size_after : ℚ
deriving DecidableEq, Repr

/-- Lines 670-672: the file enumeration - six case-sensitive literal glob
patterns, concatenated in source order. -/
def enumerateFiles (files : List String) : List String :=
  files.filter (fun f => strEndsWith f ".glb") ++
  files.filter (fun f => strEndsWith f ".GLB") ++
  files.filter (fun f => strEndsWith f ".gltf") ++
  files.filter (fun f => strEndsWith f ".GLTF") ++
  files.filter (fun f => strEndsWith f ".vrm") ++
  files.filter (fun f => strEndsWith f ".VRM")

/-- A file name matches one of the six glob patterns of lines 670-672. -/
def matchesGlob (f : String) : Bool :=
  strEndsWith f ".glb" || strEndsWith f ".GLB" || strEndsWith f ".gltf" ||
  strEndsWith f ".GLTF" || strEndsWith f ".vrm" || strEndsWith f ".VRM"

/-- Lines 691-700: the output file name - vrm keeps `.vrm`, preserve-format
keeps the input name, otherwise the stem plus `.glb`. -/
def outputName (cfg : Config) (f : String) : String :=
  if get_file_type f = "vrm" then fileStem f ++ ".vrm"
  else if cfg.preserve_format then f
  else fileStem f ++ ".glb"

/-- The per-file loop of `main` (lines 687-724) over the enumerated files.
`outExists` models `output_file.exists()`, `sizeOf` the input file size in
MB, `procOk` the result of `process_glb_file`, and `outSize` the output file
size.  Skipped files contribute to no size total; failed files contribute
only to `size_before`. -/
def runBatchGo (cfg : Config) (outExists : String → Bool) (sizeOf : String → ℚ)
    (procOk : String → Bool) (outSize : String → ℚ) :
    List String → RunStats → RunStats
  | [], st => st
  | f :: rest, st =>
    let out := outputName cfg f
    if cfg.skip_existing && outExists out then
      runBatchGo cfg outExists sizeOf procOk outSize rest
        { st with skipped := st.skipped + 1 }
    else
      let before := sizeOf f
      if procOk f then
        runBatchGo cfg outExists sizeOf procOk outSize rest
          { st with processed := st.processed + 1,
                    size_before := st.size_before + before,
                    size_after := st.size_after + outSize out }
      else
        runBatchGo cfg outExists sizeOf procOk outSize rest
          { st with errors := st.errors + 1,
                    size_before := st.size_before + before }

/-- The batch portion of `main` (lines 670-724): enumerate, then run the
per-file loop starting from zeroed accumulators; `found` is the enumerated
count of line 678. -/
def runBatch (cfg : Config) (outExists : String → Bool) (sizeOf : String → ℚ)
    (procOk : String → Bool) (outSize : String → ℚ) (files : List String) : RunStats :=
  runBatchGo cfg outExists sizeOf procOk outSize (enumerateFiles files)
    { found := (enumerateFiles files).length, processed := 0, skipped := 0,
      errors := 0, size_before := 0, size_after := 0 }

/-! ## Concrete inputs used by the claim theorems -/

/-- A typical packed PNG diffuse texture (no tint keyword, opaque). -/
def imgC1 : PImage :=
  { name := "body_diffuse", pixels := [], file_format := "PNG", packed := true,
    width := 256, height := 256, idProps := [], pyAttrs := [],
    scaleRaises := false, compressRaises := false, packRaises := false, roundTrips := 0 }

/-- Image `imgC1` after the first texture pass: converted to JPEG, round-tripped
once, and marked with the `_bulk_processed` ID property. -/
def imgC1a : PImage :=
  { imgC1 with file_format := "JPEG", roundTrips := 1, idProps := ["_bulk_processed"] }

/-- Image `imgC1` after a second texture pass: round-tripped (lossy-recompressed)
a second time. -/
def imgC1b : PImage := { imgC1a with roundTrips := 2 }

/-- A texture node referencing `imgC1`. -/
def nodeC1 : PNode :=
  { name := "Image Texture", ntype := "TEX_IMAGE", image := some "body_diffuse", inputs := [] }

/-- A used node-based material holding `nodeC1`. -/
def matC1 : PMaterial :=
  { name := "M", use_nodes := true, users := 1, nodes := [nodeC1], links := [],
    specular_intensity := 1, specular_color := (1, 1, 1) }

/-- A large texture whose host `image.scale` raises. -/
def imgC2big : PImage :=
  { name := "huge_diffuse", pixels := [], file_format := "PNG", packed := true,
    width := 2048, height := 2048, idProps := [], pyAttrs := [],
    scaleRaises := true, compressRaises := false, packRaises := false, roundTrips := 0 }

/-- A small healthy texture listed after `imgC2big` in the same material. -/
def imgC2small : PImage :=
  { name := "second_tex", pixels := [], file_format := "PNG", packed := true,
    width := 64, height := 64, idProps := [], pyAttrs := [],
    scaleRaises := false, compressRaises := false, packRaises := false, roundTrips := 0 }

/-- A used material with the failing texture first and a healthy one after it. -/
def matC2 : PMaterial :=
  { name := "M2", use_nodes := true, users := 1,
    nodes :=
      [ { name := "tex big", ntype := "TEX_IMAGE", image := some "huge_diffuse", inputs := [] },
        { name := "tex small", ntype := "TEX_IMAGE", image := some "second_tex", inputs := [] } ],
    links := [], specular_intensity := 1, specular_color := (1, 1, 1) }

/-- A texture whose save-and-reload compression block raises. -/
def imgC2w : PImage :=
  { name := "enc_fail_tex", pixels := [], file_format := "PNG", packed := true,
    width := 64, height := 64, idProps := [], pyAttrs := [],
    scaleRaises := false, compressRaises := true, packRaises := false, roundTrips := 0 }

/-- A used material referencing the encode-failing texture. -/
def matC2w : PMaterial :=
  { name := "M2w", use_nodes := true, users := 1,
    nodes := [{ name := "tex e", ntype := "TEX_IMAGE", image := some "enc_fail_tex", inputs := [] }],
    links := [], specular_intensity := 1, specular_color := (1, 1, 1) }

/-! ## C1 -/

/-- C1: the idempotence guard of `process_material_textures` is broken.
Line 441 stores the marker as a custom ID property
(`image["_bulk_processed"] = True`) while line 393 tests a Python attribute
(`hasattr(image, "_bulk_processed")`), which in Blender never sees custom ID
properties.  On a texture that the first invocation fully processed and
marked (`imgC1a`), a second invocation of `process_material_textures` is
not a no-op: it counts the texture again and lossy-recompresses it a second
time (`roundTrips` rises from 1 to 2), instead of skipping it. -/
theorem C1_marker_broken :
    process_material_textures defaultConfig matC1 [imgC1] = Except.ok ([imgC1a], 1) ∧
    process_material_textures defaultConfig matC1 [imgC1a] = Except.ok ([imgC1b], 1) ∧
    imgC1a.idProps = ["_bulk_processed"] ∧ imgC1a.roundTrips = 1 ∧ imgC1b.roundTrips = 2 := by
  decide

/-! ## C3 -/

/-- C3 counterexample: the claim says any first-attempt import failure is
retried once in degraded mode for either file kind; in fact a gltf/glb
failure whose message mentions neither bone nor animation is not retried
(one importer call, then failure), and a vrm failure is never retried even
when its message does mention bones. -/
theorem C3_counterexample :
    import_file "broken.glb" ⟨AttemptResult.err "invalid json chunk", AttemptResult.ok⟩ =
      (false, 1) ∧
    import_file "broken.vrm" ⟨AttemptResult.err "bad bone data", AttemptResult.ok⟩ =
      (false, 1) := by
  decide

/-- C3 amended: only gltf/glb imports whose first-attempt error message
contains "bone" or "animation" (case-insensitive) are retried exactly once
with the degraded importer call, succeeding iff the retry succeeds; other
gltf/glb failures and all vrm failures give up after the single attempt. -/
theorem C3_amended_retry (name msg : String) (beh : ImportBehavior) :
    (get_file_type name = "gltf" → beh.first = AttemptResult.err msg →
      animKeyword msg = true →
      (import_file name beh).2 = 2 ∧
        ((import_file name beh).1 = true ↔ beh.fallback = AttemptResult.ok)) ∧
    (get_file_type name = "gltf" → beh.first = AttemptResult.err msg →
      animKeyword msg = false → import_file name beh = (false, 1)) ∧
    (get_file_type name = "vrm" → beh.first = AttemptResult.err msg →
      import_file name beh = (false, 1)) := by
  refine ⟨fun h1 h2 h3 => ?_, fun h1 h2 h3 => ?_, fun h1 h2 => ?_⟩
  · cases hf : beh.fallback <;>
      simp [import_file, importByType, h1, h2, h3, hf]
  · simp [import_file, importByType, h1, h2, h3]
  · simp [import_file, importByType, h1, h2]

/-- C3 witness: a gltf file whose first import fails with a bone-related
message is retried (two importer invocations). -/
theorem C3_witness :
    (import_file "anim.glb"
      ⟨AttemptResult.err "Bone hierarchy mismatch", AttemptResult.ok⟩).2 = 2 :=
  ((C3_amended_retry "anim.glb" "Bone hierarchy mismatch"
      ⟨AttemptResult.err "Bone hierarchy mismatch", AttemptResult.ok⟩).1
    (by decide) rfl (by decide)).1

/-! ## C5 -/

/-- C5: under the auto format policy, a texture whose lowercased name
contains one of the precision keywords (normal / nrm / bump / roughness /
metallic) is always encoded lossless (PNG), for every image argument (hence
independent of alpha content) and every configuration of the
aggressive-conversion policy. -/
theorem C5_precision_keywords_png (cfg : Config) (name : String) (nt : Option String)
    (image : Option PImage) (h1 : cfg.texture_format = "AUTO")
    (h2 : precisionKeywords.any (fun k => strContains (strToLower name) k) = true) :
    get_texture_format cfg name nt image = "PNG" := by
  simp [get_texture_format, h1, h2]

/-- A transparent image: its single sampled alpha value is 1/2 < 0.98. -/
def imgC5 : PImage :=
  { name := "Wall_NRM", pixels := [1, 1, 1, 1/2], file_format := "PNG", packed := true,
    width := 1, height := 1, idProps := [], pyAttrs := [],
    scaleRaises := false, compressRaises := false, packRaises := false, roundTrips := 0 }

/-- C5 witness: `Wall_NRM` stays PNG under auto policy with aggressive
conversion enabled, even though the supplied image does use transparency. -/
theorem C5_witness :
    get_texture_format defaultConfig "Wall_NRM" (some "TEX_IMAGE") (some imgC5) = "PNG" :=
  C5_precision_keywords_png defaultConfig "Wall_NRM" (some "TEX_IMAGE") (some imgC5)
    rfl (by decide)

/-! ## C6 -/

/-- C6: the resize block of the texture pass - when either dimension
exceeds the target, the image is scaled to exactly target × target (square,
not aspect-preserving); when both dimensions are already within the target,
the image is returned unchanged. -/
theorem C6_resize_exact (cfg : Config) (img : PImage) (h : img.scaleRaises = false) :
    ((cfg.target_resolution < img.width ∨ cfg.target_resolution < img.height) →
      pipelineResize cfg img =
        Except.ok { img with width := cfg.target_resolution,
                             height := cfg.target_resolution }) ∧
    (img.width ≤ cfg.target_resolution → img.height ≤ cfg.target_resolution →
      pipelineResize cfg img = Except.ok img) := by
  constructor
  · intro hgt
    simp [pipelineResize, hgt, h]
  · intro h1 h2
    have hno : ¬ (cfg.target_resolution < img.width ∨ cfg.target_resolution < img.height) := by
      omega
    simp [pipelineResize, hno]

/-- A 2048 × 2048 texture, above the default 512 target. -/
def imgC6 : PImage :=
  { name := "big_tex", pixels := [], file_format := "PNG", packed := true,
    width := 2048, height := 2048, idProps := [], pyAttrs := [],
    scaleRaises := false, compressRaises := false, packRaises := false, roundTrips := 0 }

/-- C6 witness: a 2048 × 2048 image is resized to exactly 512 × 512 under
the default configuration. -/
theorem C6_witness :
    pipelineResize defaultConfig imgC6 =
      Except.ok { imgC6 with width := 512, height := 512 } :=
  (C6_resize_exact defaultConfig imgC6 rfl).1 (by decide)

/-! ## C9 -/

/-- C9: the size-reduction percentage is `(before - after) / before * 100`
whenever `before > 0` and is defined as 0 when `before = 0`; in particular
`before = 10, after = 4` yields exactly 60. -/
theorem C9_reduction_percentage :
    (∀ b a : ℚ, (0 < b → compression_ratio b a = (b - a) / b * 100) ∧
      (b = 0 → compression_ratio b a = 0)) ∧
    compression_ratio 10 4 = 60 ∧ compression_ratio 0 7 = 0 := by
  refine ⟨fun b a => ⟨fun h => ?_, fun h => ?_⟩, ?_, ?_⟩
  · simp [compression_ratio, h]
  · simp [compression_ratio, h]
  · norm_num [compression_ratio]
  · norm_num [compression_ratio]

/-- C9 witness: the general formula instantiated at `before = 10`,
`after = 4`. -/
theorem C9_witness : compression_ratio 10 4 = (10 - 4) / 10 * 100 :=
  (C9_reduction_percentage.1 10 4).1 (by norm_num)

/-! ## C10 -/

/-- C10: a texture-image node whose image name or node name contains a
specular-tint keyword is skipped entirely by the texture pass: the image
store is returned unchanged (no compression, no resize, no re-pack, no
processed mark) and the node contributes 0 to the processed count.  The
statement quantifies over every configuration, so the skip holds in
particular when `remove_specular` is disabled: `process_material_textures`
never consults that flag. -/
theorem C10_tint_skip (cfg : Config) (store : List PImage) (node : PNode) (nm : String)
    (img : PImage) (h1 : node.ntype = "TEX_IMAGE") (h2 : node.image = some nm)
    (h3 : lookupImage store nm = some img)
    (h4 : tintMatch img.name node.name = true) :
    stepNode cfg store node = Except.ok (store, 0) := by
  simp [stepNode, h1, h2, h3, h4]

/-- A packed texture whose image and node names carry tint keywords. -/
def imgC10 : PImage :=
  { name := "robe_spec_tint", pixels := [], file_format := "PNG", packed := true,
    width := 2048, height := 2048, idProps := [], pyAttrs := [],
    scaleRaises := false, compressRaises := false, packRaises := false, roundTrips := 0 }

/-- The node referencing `imgC10`. -/
def nodeC10 : PNode :=
  { name := "SpecTint Texture", ntype := "TEX_IMAGE", image := some "robe_spec_tint",
    inputs := [] }

/-- C10 witness: with the specular-removal flag disabled, the tint-named
texture is still skipped untouched by the texture pass. -/
theorem C10_witness :
    stepNode { defaultConfig with remove_specular := false } [imgC10] nodeC10 =
      Except.ok ([imgC10], 0) :=
  C10_tint_skip { defaultConfig with remove_specular := false } [imgC10] nodeC10
    "robe_spec_tint" imgC10 rfl rfl (by decide) (by decide)

/-! ## C8 -/

/-- The batch run on a directory holding a single unrecognized file. -/
def statsC8 : RunStats :=
  runBatch defaultConfig (fun _ => false) (fun _ => 1) (fun _ => true) (fun _ => 1)
    ["model.txt"]

/-- C8 counterexample: `model.txt` has an unrecognized extension, yet a run
over a directory containing only it reports **zero** errors (and zero found
/ processed / skipped): the file is silently ignored by the enumeration, not
counted as an error in `RunStats` as the claim requires. -/
theorem C8_counterexample :
    get_file_type "model.txt" = "unknown" ∧
    statsC8.errors = 0 ∧ statsC8.processed = 0 ∧ statsC8.found = 0 ∧
    statsC8.skipped = 0 := by
  decide

/-- C8 amended: a file whose name matches none of the six literal glob
patterns (`*.glb`, `*.GLB`, `*.gltf`, `*.GLTF`, `*.vrm`, `*.VRM`) - in
particular an unrecognized-extension file such as `model.txt` - is never
enumerated by the orchestrator: it is neither imported nor processed, and it
contributes nothing at all to `RunStats`, not even to the error count. -/
theorem C8_amended_silent_exclusion (cfg : Config) (outExists : String → Bool)
    (sizeOf : String → ℚ) (procOk : String → Bool) (outSize : String → ℚ)
    (f : String) (files : List String) (h : matchesGlob f = false) :
    runBatch cfg outExists sizeOf procOk outSize (f :: files) =
      runBatch cfg outExists sizeOf procOk outSize files := by
  simp only [matchesGlob, Bool.or_eq_false_iff] at h
  obtain ⟨⟨⟨⟨⟨h1, h2⟩, h3⟩, h4⟩, h5⟩, h6⟩ := h
  have henum : enumerateFiles (f :: files) = enumerateFiles files := by
    simp [enumerateFiles, List.filter_cons, h1, h2, h3, h4, h5, h6]
  rw [runBatch, runBatch, henum]

/-- C8 witness: prepending `model.txt` to a directory listing leaves the
whole run statistics unchanged. -/
theorem C8_witness :
    runBatch defaultConfig (fun _ => false) (fun _ => (1 : ℚ)) (fun _ => true)
        (fun _ => (1 : ℚ)) ["model.txt", "a.glb"] =
      runBatch defaultConfig (fun _ => false) (fun _ => (1 : ℚ)) (fun _ => true)
        (fun _ => (1 : ℚ)) ["a.glb"] :=
  C8_amended_silent_exclusion defaultConfig (fun _ => false) (fun _ => (1 : ℚ))
    (fun _ => true) (fun _ => (1 : ℚ)) "model.txt" ["a.glb"] (by decide)

/-! ## C2 -/

/-- C2 counterexample: `matC2` holds two textures; the first one's host
`image.scale` raises during the resize step, which `process_material_textures`
does not catch per-texture - the exception escapes the texture loop
(`pmtAll` errors) and the asset-level handler of `process_glb_file` turns
the whole asset into a failure (`false`), although its import and export
would succeed and the second texture is healthy.  A single failing texture
therefore does fail the whole asset, contrary to the claim. -/
theorem C2_counterexample :
    pmtAll defaultConfig [matC2] [imgC2big, imgC2small] =
      Except.error "image.scale raised" ∧
    process_glb_file defaultConfig "asset.glb" ⟨AttemptResult.ok, AttemptResult.ok⟩
      [matC2] [imgC2big, imgC2small] true = false := by
  decide

/-- Lemma: `apply_texture_compression` never touches the `scaleRaises` flag. -/
theorem atc_scaleRaises (cfg : Config) (img : PImage) (t : String) :
    (apply_texture_compression cfg img t).scaleRaises = img.scaleRaises := by
  rw [apply_texture_compression]
  repeat' split
  all_goals rfl

/-- A non-raising image passes the resize block successfully, and the
result still does not raise. -/
theorem pipelineResize_ok (cfg : Config) (img : PImage) (h : img.scaleRaises = false) :
    ∃ i, pipelineResize cfg img = Except.ok i ∧ i.scaleRaises = false := by
  rw [pipelineResize]
  split
  · rw [if_neg (by simp [h])]
    exact ⟨_, rfl, h⟩
  · exact ⟨img, rfl, h⟩

/-- An element of an updated store is the new image or an old element. -/
theorem mem_updateImage (store : List PImage) (img x : PImage)
    (hx : x ∈ updateImage store img) : x = img ∨ x ∈ store := by
  rw [updateImage] at hx
  obtain ⟨i, hi, hfi⟩ := List.mem_map.mp hx
  by_cases h : i.name == img.name
  · left; rw [if_pos h] at hfi; exact hfi.symm
  · right; rw [if_neg h] at hfi; exact hfi ▸ hi

/-- Marking the processed ID property never touches the `scaleRaises` flag. -/
theorem setItemBulk_scaleRaises (img : PImage) :
    (setItemBulkProcessed img).scaleRaises = img.scaleRaises := rfl

/-- One image's processing succeeds when its `image.scale` does not raise,
and the result's `scaleRaises` flag is still cleared. -/
theorem processImageAtNode_ok (cfg : Config) (node : PNode) (img : PImage)
    (h : img.scaleRaises = false) :
    ∃ i, processImageAtNode cfg node img = Except.ok i ∧ i.scaleRaises = false := by
  obtain ⟨img2, h2eq, h2⟩ := pipelineResize_ok cfg
    (apply_texture_compression cfg img
      (get_texture_format cfg img.name (some node.ntype) (some img)))
    (by rw [atc_scaleRaises]; exact h)
  rw [processImageAtNode, h2eq]
  refine ⟨_, rfl, ?_⟩
  rw [setItemBulk_scaleRaises]
  split
  · split
    · exact h2
    · exact h2
  · exact h2

/-- Unfolding `stepNode` at a texture node whose image resolves in the
store. -/
theorem stepNode_eq_found (cfg : Config) (store : List PImage) (node : PNode)
    (nm : String) (img : PImage) (hn : node.ntype = "TEX_IMAGE")
    (hni : node.image = some nm) (hl : lookupImage store nm = some img) :
    stepNode cfg store node =
      (if hasattrBulkProcessed img then Except.ok (store, 0)
       else if tintMatch img.name node.name then Except.ok (store, 0)
       else
         match processImageAtNode cfg node img with
         | Except.error e => Except.error e
         | Except.ok img4 => Except.ok (updateImage store img4, 1)) := by
  rw [stepNode, if_pos hn, hni]
  dsimp only
  rw [hl]

/-- Unfolding `stepNode` at a texture node whose image is missing from the
store. -/
theorem stepNode_eq_notfound (cfg : Config) (store : List PImage) (node : PNode)
    (nm : String) (hn : node.ntype = "TEX_IMAGE") (hni : node.image = some nm)
    (hl : lookupImage store nm = none) :
    stepNode cfg store node = Except.ok (store, 0) := by
  rw [stepNode, if_pos hn, hni]
  dsimp only
  rw [hl]

/-- One node step of the texture loop cannot raise when no image of the
store has a raising `image.scale`, and the resulting store again has no
raising image: resize failures are the only uncaught exceptions of the
loop body (compression failures are absorbed inside
`apply_texture_compression`). -/
theorem stepNode_ok (cfg : Config) (store : List PImage) (node : PNode)
    (h : ∀ img ∈ store, img.scaleRaises = false) :
    ∃ s c, stepNode cfg store node = Except.ok (s, c) ∧
      ∀ img ∈ s, img.scaleRaises = false := by
  by_cases hn : node.ntype = "TEX_IMAGE"
  · cases hni : node.image with
    | none => exact ⟨store, 0, by rw [stepNode, if_pos hn, hni], h⟩
    | some nm =>
      cases hl : lookupImage store nm with
      | none => exact ⟨store, 0, stepNode_eq_notfound cfg store node nm hn hni hl, h⟩
      | some img =>
        have hl' : store.find? (fun i => i.name == nm) = some img := hl
        have himg : img ∈ store := List.mem_of_find?_eq_some hl'
        have hsr : img.scaleRaises = false := h img himg
        rw [stepNode_eq_found cfg store node nm img hn hni hl]
        cases hA : hasattrBulkProcessed img with
        | true => exact ⟨store, 0, by simp [hA], h⟩
        | false =>
          cases hT : tintMatch img.name node.name with
          | true => exact ⟨store, 0, by simp [hA, hT], h⟩
          | false =>
            obtain ⟨img4, h4eq, h4⟩ := processImageAtNode_ok cfg node img hsr
            refine ⟨updateImage store img4, 1, ?_, ?_⟩
            · simp only [hA, hT, Bool.false_eq_true, if_false, h4eq]
            · intro x hx
              rcases mem_updateImage _ _ _ hx with hx | hx
              · exact hx ▸ h4
              · exact h x hx
  · exact ⟨store, 0, by simp [stepNode, hn], h⟩

/-- The texture loop over a node list cannot raise when no image of the
store raises on scale. -/
theorem pmtGo_ok (cfg : Config) (nodes : List PNode) :
    ∀ store count, (∀ img ∈ store, img.scaleRaises = false) →
    ∃ s c, pmtGo cfg nodes store count = Except.ok (s, c) ∧
      ∀ img ∈ s, img.scaleRaises = false := by
  induction nodes with
  | nil => exact fun store count h => ⟨store, count, rfl, h⟩
  | cons n rest ih =>
    intro store count h
    obtain ⟨s', c', heq, h'⟩ := stepNode_ok cfg store n h
    rw [pmtGo, heq]
    exact ih s' (count + c') h'

/-- Lemma: `process_material_textures` cannot raise on a scale-safe store. -/
theorem pmt_ok (cfg : Config) (mat : PMaterial) (store : List PImage)
    (h : ∀ img ∈ store, img.scaleRaises = false) :
    ∃ s c, process_material_textures cfg mat store = Except.ok (s, c) ∧
      ∀ img ∈ s, img.scaleRaises = false := by
  rw [process_material_textures]
  split
  · exact ⟨store, 0, rfl, h⟩
  · exact pmtGo_ok cfg mat.nodes store 0 h

/-- C2 amended: failures of the lossy *encoding* round trip are caught
per-texture inside `apply_texture_compression` and never abort the texture
loop - over any materials and any store whose images have non-raising
`image.scale` (compression and re-pack failures arbitrary), the whole
texture-processing loop of the asset completes without an exception.  The
resize step, by contrast, is *not* caught per-texture: a raising
`image.scale` propagates and fails the whole asset
(see the counterexample). -/
theorem C2_amended_resilience (cfg : Config) (mats : List PMaterial)
    (store : List PImage) (h : ∀ img ∈ store, img.scaleRaises = false) :
    ∃ s n, pmtAll cfg mats store = Except.ok (s, n) := by
  suffices hs : ∀ (ms : List PMaterial) (st : List PImage),
      (∀ img ∈ st, img.scaleRaises = false) →
      ∃ s n, pmtAll cfg ms st = Except.ok (s, n) ∧
        ∀ img ∈ s, img.scaleRaises = false by
    obtain ⟨s, n, heq, _⟩ := hs mats store h
    exact ⟨s, n, heq⟩
  intro ms
  induction ms with
  | nil => exact fun st hst => ⟨st, 0, rfl, hst⟩
  | cons m rest ih =>
    intro st hst
    rw [pmtAll]
    split
    · obtain ⟨s', c', heq, h'⟩ := pmt_ok cfg m st hst
      rw [heq]
      dsimp only
      obtain ⟨s'', c'', heq', h''⟩ := ih s' h'
      rw [heq']
      exact ⟨s'', c' + c'', rfl, h''⟩
    · exact ih st hst

/-- C2 witness: a material whose only texture has a raising save-and-reload
compression block is still processed to completion by the texture loop. -/
theorem C2_witness :
    ∃ s n, pmtAll defaultConfig [matC2w] [imgC2w] = Except.ok (s, n) :=
  C2_amended_resilience defaultConfig [matC2w] [imgC2w] (by decide)

/-! ## C4 -/

/-- The sampled-index list has exactly `⌈n / step⌉` elements. -/
theorem sampleIndices_length (n : Nat) :
    (sampleIndices n).length = (n + sampleStep n - 1) / sampleStep n := by
  simp [sampleIndices]

/-- The alpha plane of an RGBA buffer has `length / 4` entries. -/
theorem alphaValues_length (pixels : List ℚ) :
    (alphaValues pixels).length = pixels.length / 4 := by
  simp [alphaValues]

/-- The sampler visits at most 1999 indices: for fewer than 2000 alpha
values the step is 1 and every value is visited; for `n ≥ 2000` the step is
`n / 1000 ≥ 2` and `⌈n / step⌉ < 2000`. -/
theorem sampleCount_le_1999 (n : Nat) : (sampleIndices n).length ≤ 1999 := by
  rw [sampleIndices_length]
  by_cases hlt : n < 2000
  · have hs : sampleStep n = 1 := by rw [sampleStep]; omega
    rw [hs]; omega
  · have hs : sampleStep n = n / 1000 := by rw [sampleStep]; omega
    rw [hs]
    have h1000 : 1000 * (n / 1000) + n % 1000 = n := Nat.div_add_mod n 1000
    have hmod : n % 1000 < 1000 := Nat.mod_lt _ (by norm_num)
    have hpos : 0 < n / 1000 := by omega
    have hlt2 : n + n / 1000 - 1 < 2000 * (n / 1000) := by omega
    exact Nat.lt_succ_iff.mp ((Nat.div_lt_iff_lt_mul hpos).2 hlt2)

/-- An RGBA buffer of 4004 floats: 1001 alpha values. -/
def pixC4 : List ℚ := List.replicate 4004 1

/-- C4 counterexample: a decoded image with 1001 alpha values (pixel-buffer
length 4004, divisible by 4) has sampling stride
`max(1, 1001 / 1000) = 1`, so the sampler inspects all 1001 alpha values -
more than the claimed bound of at most 1000. -/
theorem C4_counterexample :
    pixC4.length % 4 = 0 ∧
    (alphaValues pixC4).length = 1001 ∧
    (sampleIndices ((alphaValues pixC4).length)).length = 1001 ∧
    1000 < (sampleIndices ((alphaValues pixC4).length)).length := by
  have h1 : pixC4.length = 4004 := by rw [pixC4, List.length_replicate]
  have h2 : (alphaValues pixC4).length = 1001 := by rw [alphaValues_length, h1]
  have h3 : (sampleIndices ((alphaValues pixC4).length)).length = 1001 := by
    rw [h2, sampleIndices_length]
    rfl
  exact ⟨by rw [h1], h2, h3, by rw [h3]; norm_num⟩

/-- C4 amended: the sampler returns false when the pixel-buffer length is
not divisible by 4; it inspects the alpha values at the evenly strided
indices `0, s, 2s, ...` with `s = max(1, count / 1000)` - at most **1999**
of them (not 1000; the bound 1000 is only attained when the count is an
exact multiple of 1000) - and for a nonempty divisible buffer it returns
true iff some inspected alpha value is below 0.98. -/
theorem C4_amended_sampler (img : PImage) :
    (img.pixels.length % 4 ≠ 0 → has_alpha_channel (some img) = false) ∧
    (sampleIndices ((alphaValues img.pixels).length)).length ≤ 1999 ∧
    (¬ img.pixels.isEmpty → img.pixels.length % 4 = 0 →
      (has_alpha_channel (some img) = true ↔
        ∃ i ∈ sampleIndices ((alphaValues img.pixels).length),
          (alphaValues img.pixels).getD i 1 < (49 : ℚ) / 50)) := by
  refine ⟨fun h => ?_, sampleCount_le_1999 _, fun h1 h2 => ?_⟩
  · by_cases he : img.pixels.isEmpty
    · simp [has_alpha_channel, he]
    · simp [has_alpha_channel, he, h]
  · simp [has_alpha_channel, h1, h2, List.any_eq_true]

/-- An image whose pixel buffer has 5 entries - no clean RGBA planes. -/
def imgC4w : PImage :=
  { name := "odd_buffer", pixels := [1, 1, 1, 1, 1], file_format := "PNG", packed := true,
    width := 1, height := 1, idProps := [], pyAttrs := [],
    scaleRaises := false, compressRaises := false, packRaises := false, roundTrips := 0 }

/-- C4 witness: a buffer whose length is not divisible by 4 yields
`false`. -/
theorem C4_witness : has_alpha_channel (some imgC4w) = false :=
  (C4_amended_sampler imgC4w).1 (by decide)

/-! ## C7 -/

/-- Lemma: `setSpecDefault` only rewrites the default value, never the name. -/
theorem setSpecDefault_name (inp : PInput) : (setSpecDefault inp).name = inp.name := by
  rw [setSpecDefault]
  repeat' split
  all_goals rfl

/-- C7: after the sanitizer runs on a node material (specular removal
enabled), every principled node of the result has: each present
`Specular Tint` input with default set to the opaque-white identity
(scalar 1 or color (1,1,1,1)) and no incoming links, and each present
`Specular` / `Specular IOR Level` input with default set to the neutral
value (0 or (0,0,0,1)) and no incoming links. -/
theorem C7_sanitizer_specular (cfg : Config) (mat : PMaterial)
    (hflag : cfg.remove_specular = true) (hun : mat.use_nodes = true)
    (n : PNode) (hn : n ∈ (clean_material_properties cfg mat).nodes)
    (hp : n.ntype = "BSDF_PRINCIPLED") (inp : PInput) (hi : inp ∈ n.inputs) :
    (inp.name = "Specular Tint" →
      (inp.default_value = DVal.scalar 1 ∨ inp.default_value = DVal.color (1, 1, 1, 1)) ∧
      incomingLinks (clean_material_properties cfg mat) n.name inp.name = []) ∧
    ((inp.name = "Specular" ∨ inp.name = "Specular IOR Level") →
      (inp.default_value = DVal.scalar 0 ∨ inp.default_value = DVal.color (0, 0, 0, 1)) ∧
      incomingLinks (clean_material_properties cfg mat) n.name inp.name = []) := by
  have hclean : clean_material_properties cfg mat =
      { mat with
        nodes :=
          (mat.nodes.map (fun n =>
            if n.ntype == "BSDF_PRINCIPLED" then
              { n with inputs := n.inputs.map setSpecDefault }
            else n)).filter (fun n => ! nodeRemoved n)
        links := mat.links.filter (fun l => ! linkRemoved mat l) } := by
    rw [clean_material_properties, if_neg (by simp [hflag]), if_neg (by simp [hun])]
  rw [hclean] at hn
  obtain ⟨hmem, -⟩ := List.mem_filter.mp hn
  obtain ⟨n₀, hmemn₀, hfn₀⟩ := List.mem_map.mp hmem
  by_cases hb : (n₀.ntype == "BSDF_PRINCIPLED") = true
  case neg =>
    rw [if_neg hb] at hfn₀
    rw [← hfn₀] at hp
    exact absurd (by simp [hp]) hb
  case pos =>
    rw [if_pos hb] at hfn₀
    have hname_eq : n.name = n₀.name := by rw [← hfn₀]
    have hinputs : n.inputs = n₀.inputs.map setSpecDefault := by rw [← hfn₀]
    rw [hinputs] at hi
    obtain ⟨inp₀, hin₀, hfi⟩ := List.mem_map.mp hi
    have hname : inp.name = inp₀.name := by rw [← hfi, setSpecDefault_name]
    have hlinks : specInputNames.contains inp.name = true →
        incomingLinks (clean_material_properties cfg mat) n.name inp.name = [] := by
      intro hspec
      rw [hclean, incomingLinks]
      dsimp only
      rw [List.filter_eq_nil_iff]
      intro l hl hcond
      obtain ⟨hl0, hkeep⟩ := List.mem_filter.mp hl
      obtain ⟨ht1, ht2⟩ := (Bool.and_eq_true _ _).mp hcond
      have htn : l.toNode = n.name := eq_of_beq ht1
      have hti : l.toInput = inp.name := eq_of_beq ht2
      have hrem : linkRemoved mat l = true := by
        rw [linkRemoved]
        rw [Bool.or_eq_true]
        right
        apply List.any_eq_true.mpr
        refine ⟨n₀, hmemn₀, ?_⟩
        have e2 : (l.toNode == n₀.name) = true := by
          rw [htn, hname_eq]; exact beq_self_eq_true _
        have e3 : specInputNames.contains l.toInput = true := by rw [hti]; exact hspec
        have e4 : n₀.inputs.any (fun i => i.name == l.toInput) = true := by
          apply List.any_eq_true.mpr
          refine ⟨inp₀, hin₀, ?_⟩
          rw [hti, hname]
          exact beq_self_eq_true _
        simp only [Bool.and_eq_true]
        exact ⟨⟨⟨hb, e2⟩, e3⟩, e4⟩
      simp [hrem] at hkeep
    refine ⟨fun hT => ?_, fun hS => ?_⟩
    · have hn0name : inp₀.name = "Specular Tint" := by rw [← hname]; exact hT
      refine ⟨?_, hlinks (by rw [hT]; decide)⟩
      rw [← hfi, setSpecDefault, if_pos (by rw [hn0name]; decide), if_pos hn0name]
      cases hdv : inp₀.default_value with
      | scalar q => left; rfl
      | color c => right; rfl
    · have hn0name : inp₀.name = "Specular" ∨ inp₀.name = "Specular IOR Level" := by
        rw [← hname]; exact hS
      have hncontains : specInputNames.contains inp₀.name = true := by
        rcases hn0name with h | h <;> rw [h] <;> decide
      have hnott : ¬ inp₀.name = "Specular Tint" := by
        rcases hn0name with h | h <;> rw [h] <;> decide
      refine ⟨?_, hlinks (by rw [hname]; exact hncontains)⟩
      rw [← hfi, setSpecDefault, if_pos hncontains, if_neg hnott]
      cases hdv : inp₀.default_value with
      | scalar q => left; rfl
      | color c => right; rfl

/-- A material whose principled node has a linked `Specular Tint` input fed
by a tint-named texture, plus a `Specular` input and an unrelated
`Base Color` input. -/
def matC7 : PMaterial :=
  { name := "M7", use_nodes := true, users := 1,
    nodes :=
      [ { name := "TintTex", ntype := "TEX_IMAGE", image := some "specular_tint_map",
          inputs := [] },
        { name := "P", ntype := "BSDF_PRINCIPLED", image := none,
          inputs :=
            [ { name := "Specular Tint", default_value := DVal.color (2, 2, 2, 1) },
              { name := "Specular", default_value := DVal.scalar 5 },
              { name := "Base Color", default_value := DVal.color (3, 3, 3, 1) } ] } ],
    links := [{ fromNode := "TintTex", toNode := "P", toInput := "Specular Tint" }],
    specular_intensity := 1, specular_color := (1, 1, 1) }

/-- The principled node of `matC7` as it appears after the sanitizer. -/
def nodeC7 : PNode :=
  { name := "P", ntype := "BSDF_PRINCIPLED", image := none,
    inputs :=
      [ { name := "Specular Tint", default_value := DVal.color (1, 1, 1, 1) },
        { name := "Specular", default_value := DVal.scalar 0 },
        { name := "Base Color", default_value := DVal.color (3, 3, 3, 1) } ] }

/-- The sanitized `Specular Tint` input of `nodeC7`. -/
def inpC7 : PInput := { name := "Specular Tint", default_value := DVal.color (1, 1, 1, 1) }

/-- C7 witness: on `matC7` the sanitized `Specular Tint` input carries the
opaque-white identity and has no incoming links. -/
theorem C7_witness :
    (inpC7.default_value = DVal.scalar 1 ∨ inpC7.default_value = DVal.color (1, 1, 1, 1)) ∧
    incomingLinks (clean_material_properties defaultConfig matC7) nodeC7.name inpC7.name
      = [] :=
  (C7_sanitizer_specular defaultConfig matC7 rfl rfl nodeC7 (by decide) rfl inpC7
    (by decide)).1 rfl

end GlbOpt
